import Mathlib

/-!
Shallow embedding of the fastapi-app repository (routes/image_gen.py,
routes/insta_scraper.py) and proofs about its route handlers.

Python values returned by the upstream generation API are modelled by the
inductive `PyVal`; Python `str()` coercion by `pyStr`; the route handlers are
translated as pure functions over an explicit store state (a list of
documents), with external calls (replicate.run, requests.get) passed in as
function parameters and raised-but-uncaught exceptions made explicit in the
result type.
-/

namespace FastApiApp

/-- Model of the Python values that can reach `extract_url_from_output`:
strings, integers, `None`, lists, objects exposing a `url` attribute
(e.g. replicate's `FileOutput`, with `objStr` its `str()`/`repr()` text),
and objects without one. -/
inductive PyVal : Type
  | pstr (s : String)
  | pint (n : Int)
  | pnone
  | plist (xs : List PyVal)
  | pobjUrl (url : PyVal) (objStr : String)
  | pobjPlain (objStr : String)

/-- Decimal digit characters of a natural number, most significant first
(fuel-indexed; `natRepr` supplies enough fuel). Mirrors Python `str(int)`
for non-negative values. -/
def natDigitsAux : Nat → Nat → List Char
  | 0, _ => []
  | fuel + 1, n =>
    if n < 10 then [Nat.digitChar n]
    else natDigitsAux fuel (n / 10) ++ [Nat.digitChar (n % 10)]

/-- Decimal rendering of a natural number, as Python `str()` prints it. -/
def natRepr (n : Nat) : String := String.mk (natDigitsAux (n + 1) n)

/-- Python `str()` of an integer. -/
def intRepr : Int → String
  | Int.ofNat m => natRepr m
  | Int.negSucc m => "-" ++ natRepr (m + 1)

mutual
/-- Python `repr()` of a modelled value (used by `str()` when rendering the
elements of a list). -/
def pyRepr : PyVal → String
  | .pstr s => "'" ++ s ++ "'"
  | .pint n => intRepr n
  | .pnone => "None"
  | .plist xs => "[" ++ pyReprList xs ++ "]"
  | .pobjUrl _ objStr => objStr
  | .pobjPlain objStr => objStr

/-- Comma-separated `repr()`s of a list's elements. -/
def pyReprList : List PyVal → String
  | [] => ""
  | [x] => pyRepr x
  | x :: y :: xs => pyRepr x ++ ", " ++ pyReprList (y :: xs)
end

/-- Python `str()` of a modelled value: a string renders as itself, other
values as their `repr()`. -/
def pyStr : PyVal → String
  | .pstr s => s
  | v => pyRepr v

/-- `hasattr(v, "url")` over the model. -/
def hasUrlAttr : PyVal → Bool
  | .pobjUrl _ _ => true
  | _ => false

/-- `isinstance(v, str)` over the model. -/
def isStrVal : PyVal → Bool
  | .pstr _ => true
  | _ => false

/-- `isinstance(v, list)` over the model. -/
def isListVal : PyVal → Bool
  | .plist _ => true
  | _ => false

/-- The Python exception kinds the embedded code can raise or catch. -/
inductive PyErr : Type
  | attributeError
  | typeError
  | indexError
  | valueError
  | invalidId
  deriving DecidableEq

/-- `getattr(v, "url")`: the attribute value, or `AttributeError`. -/
def getUrlAttr : PyVal → Except PyErr PyVal
  | .pobjUrl u _ => .ok u
  | _ => .error .attributeError

/-- `v[i]` on a list: the element, or `IndexError` when out of range. -/
def listGetItem (xs : List PyVal) (i : Nat) : Except PyErr PyVal :=
  match xs.get? i with
  | some v => .ok v
  | none => .error .indexError

/-- `len(v)` for a list or string; `TypeError` otherwise. -/
def pyLen : PyVal → Except PyErr Nat
  | .plist xs => .ok xs.length
  | .pstr s => .ok s.length
  | _ => .error .typeError

/-- The `try:` body of `extract_url_from_output` (image_gen.py lines 47-65),
translated statement by statement with each fallible primitive in the
`Except PyErr` monad. -/
def extractBody (output : PyVal) : Except PyErr String :=
  if hasUrlAttr output then
    match getUrlAttr output with
    | .ok u => .ok (pyStr u)
    | .error e => .error e
  else if isStrVal output then
    .ok (pyStr output)
  else
    match output with
    | .plist xs =>
      match pyLen (.plist xs) with
      | .error e => .error e
      | .ok n =>
        if n > 0 then
          match listGetItem xs 0 with
          | .error e => .error e
          | .ok first =>
            if hasUrlAttr first then
              match getUrlAttr first with
              | .ok u => .ok (pyStr u)
              | .error e => .error e
            else .ok (pyStr first)
        else .ok (pyStr (.plist xs))
    | v => .ok (pyStr v)

/-- Is the exception one of the types named in the `except` clause
(`AttributeError, TypeError, IndexError, ValueError`)? -/
def isCaughtByExtract : PyErr → Bool
  | .attributeError => true
  | .typeError => true
  | .indexError => true
  | .valueError => true
  | .invalidId => false

/-- `extract_url_from_output` (image_gen.py lines 45-69) including its
`try`/`except` wrapper: errors of the four caught kinds fall back to
`str(output)`; any other exception would propagate. -/
def extract_url_from_output_impl (output : PyVal) : Except PyErr String :=
  match extractBody output with
  | .ok s => .ok s
  | .error e => if isCaughtByExtract e then .ok (pyStr output) else .error e

/-- The extracted pure normal form of `extract_url_from_output`: the string
the function returns on every input (proved equal to the monadic translation
in `extract_url_total_never_errors`). -/
def extract_url_from_output : PyVal → String
  | .pobjUrl u _ => pyStr u
  | .pstr s => s
  | .plist (first :: _) =>
    match first with
    | .pobjUrl u _ => pyStr u
    | x => pyStr x
  | v => pyStr v

/-- The "two checks" of spec §4.1 steps 1-2, written from the spec's words
for the refinement comparison: a value exposing a locator attribute yields
the stringified attribute; a value that is already a string is returned
unchanged; otherwise no match. -/
def specLocatorCheck (v : PyVal) : Option String :=
  match v with
  | .pobjUrl u _ => some (pyStr u)
  | .pstr s => some s
  | _ => none

/-- The Response Normalizer as spec §4.1 words it (ordered, first match
wins), written from the spec's words, independently of the code: steps 1-2
are `specLocatorCheck`; step 3 recurses the same two checks on the first
element of a non-empty sequence, else string-coerces that element; step 4
string-coerces the whole value. -/
def specResponseNormalizer (v : PyVal) : String :=
  match specLocatorCheck v with
  | some s => s
  | none =>
    match v with
    | .plist (x :: _) =>
      match specLocatorCheck x with
      | some s => s
      | none => pyStr x
    | _ => pyStr v

/-! ### String non-emptiness helpers -/

theorem append_onto_ne_empty (a s : String) (ha : a ≠ "") : a ++ s ≠ "" := by
  intro h
  apply ha
  have hd : (a ++ s).data = ("" : String).data := by rw [h]
  rw [String.data_append] at hd
  exact String.ext ((List.append_eq_nil.mp hd).1)

theorem natDigitsAux_ne_nil (fuel n : Nat) : natDigitsAux (fuel + 1) n ≠ [] := by
  rw [natDigitsAux]
  by_cases h : n < 10
  · simp [h]
  · simp [h]

theorem natRepr_ne_empty (n : Nat) : natRepr n ≠ "" := by
  intro h
  have hd : (natRepr n).data = ("" : String).data := by rw [h]
  rw [natRepr] at hd
  exact natDigitsAux_ne_nil n n hd

theorem intRepr_ne_empty (n : Int) : intRepr n ≠ "" := by
  cases n with
  | ofNat m => exact natRepr_ne_empty m
  | negSucc m => exact append_onto_ne_empty "-" _ (by decide)

mutual
/-- Every string embedded in the value (string values, object `str()`
representations) is non-empty. -/
def allStringsNonempty : PyVal → Bool
  | .pstr s => !(s == "")
  | .pint _ => true
  | .pnone => true
  | .plist xs => allStringsNonemptyL xs
  | .pobjUrl u objStr => !(objStr == "") && allStringsNonempty u
  | .pobjPlain objStr => !(objStr == "")

/-- `allStringsNonempty` over each element of a list. -/
def allStringsNonemptyL : List PyVal → Bool
  | [] => true
  | x :: xs => allStringsNonempty x && allStringsNonemptyL xs
end

theorem pyStr_ne_empty (v : PyVal) (h : allStringsNonempty v = true) :
    pyStr v ≠ "" := by
  cases v with
  | pstr s =>
    rw [allStringsNonempty] at h
    simpa [pyStr] using h
  | pint n => exact intRepr_ne_empty n
  | pnone => decide
  | plist xs => exact append_onto_ne_empty "[" _ (by decide)
  | pobjUrl u objStr =>
    rw [allStringsNonempty] at h
    simp only [Bool.and_eq_true, Bool.not_eq_true', beq_eq_false_iff_ne] at h
    simpa [pyStr, pyRepr] using h.1
  | pobjPlain objStr =>
    rw [allStringsNonempty] at h
    simpa [pyStr, pyRepr] using h

/-! ### Claims about the Response Normalizer -/

/-- C1: for every recognized input shape, `extract_url_from_output` returns
exactly the locator the spec's ordered first-match-wins algorithm (embedded
from the spec's words as `specResponseNormalizer`) prescribes; in
particular an object with `url = "https://x/a.jpg"` yields
`"https://x/a.jpg"`, the list `["https://x/b.jpg"]` yields
`"https://x/b.jpg"`, and `42` yields `"42"`. -/
theorem extract_url_matches_spec_algorithm :
    (∀ v : PyVal, extract_url_from_output v = specResponseNormalizer v)
    ∧ extract_url_from_output (.pobjUrl (.pstr "https://x/a.jpg") "FileOutput")
        = "https://x/a.jpg"
    ∧ extract_url_from_output (.plist [.pstr "https://x/b.jpg"])
        = "https://x/b.jpg"
    ∧ extract_url_from_output (.pint 42) = "42" := by
  refine ⟨?_, rfl, rfl, by decide⟩
  intro v
  cases v with
  | plist xs => cases xs with
    | nil => rfl
    | cons x xs => cases x <;> rfl
  | pstr s => rfl
  | pint n => rfl
  | pnone => rfl
  | pobjUrl u objStr => rfl
  | pobjPlain objStr => rfl

/-- C2 as stated is false: the empty string input is returned unchanged, so
the normalizer's output reaching the Record Persister can be the empty
string. -/
theorem extract_url_nonempty_refuted :
    ¬ ∀ v : PyVal, extract_url_from_output v ≠ "" :=
  fun h => h (.pstr "") rfl

/-- C2 (amended): the normalizer's output is non-empty for every input all
of whose embedded strings are non-empty; the fallback string coercion of
integers, `None`, lists and objects never produces the empty string. -/
theorem extract_url_nonempty_of_allStringsNonempty (v : PyVal)
    (h : allStringsNonempty v = true) : extract_url_from_output v ≠ "" := by
  cases v with
  | pstr s =>
    rw [allStringsNonempty] at h
    simpa [extract_url_from_output] using h
  | pint n => exact intRepr_ne_empty n
  | pnone => decide
  | pobjPlain objStr =>
    rw [allStringsNonempty] at h
    simpa [extract_url_from_output, pyStr, pyRepr] using h
  | pobjUrl u objStr =>
    rw [allStringsNonempty] at h
    simp only [Bool.and_eq_true] at h
    exact pyStr_ne_empty u h.2
  | plist xs =>
    cases xs with
    | nil => decide
    | cons x xs =>
      rw [allStringsNonempty, allStringsNonemptyL] at h
      simp only [Bool.and_eq_true] at h
      cases x with
      | pobjUrl u objStr =>
        have := h.1
        rw [allStringsNonempty] at this
        simp only [Bool.and_eq_true] at this
        exact pyStr_ne_empty u this.2
      | pstr s => exact pyStr_ne_empty (.pstr s) h.1
      | pint n => exact intRepr_ne_empty n
      | pnone => exact (by decide : ("None" : String) ≠ "")
      | plist ys => exact append_onto_ne_empty "[" _ (by decide)
      | pobjPlain objStr => exact pyStr_ne_empty (.pobjPlain objStr) h.1

/-- Witness for the amended C2 at a concrete input. -/
theorem extract_url_nonempty_witness :
    allStringsNonempty (.plist [.pstr "https://x/b.jpg"]) = true
    ∧ extract_url_from_output (.plist [.pstr "https://x/b.jpg"]) ≠ "" :=
  ⟨by decide,
   extract_url_nonempty_of_allStringsNonempty
     (.plist [.pstr "https://x/b.jpg"]) (by decide)⟩

/-- C3: normalization never fails outward: the translation of
`extract_url_from_output` with its `try`/`except` made explicit always
succeeds, returning the pure normal form (every error the body can raise is
one of the four caught kinds and falls back to the string coercion of the
input). -/
theorem extract_url_total_never_errors (v : PyVal) :
    extract_url_from_output_impl v = Except.ok (extract_url_from_output v) := by
  cases v with
  | plist xs => cases xs with
    | nil => rfl
    | cons x xs =>
      cases x <;>
        simp [extract_url_from_output_impl, extractBody, hasUrlAttr, isStrVal,
          isListVal, pyLen, listGetItem, getUrlAttr, extract_url_from_output,
          Nat.succ_pos]
  | pstr s => rfl
  | pint n => rfl
  | pnone => rfl
  | pobjUrl u objStr => rfl
  | pobjPlain objStr => rfl

/-! ### JSON-ish response values, store documents, ObjectId -/

/-- Scalar JSON values appearing in the handlers' response bodies and in
scraper store documents (response bodies are association lists of these). -/
inductive JVal : Type
  | s (v : String)
  | b (v : Bool)
  | n (v : Nat)
  | null
  deriving DecidableEq

/-- Python truthiness of an `str` value: non-empty. -/
def strTruthy (s : String) : Bool := !(s == "")

/-- Python truthiness of an optional `str` (`None` default): present and
non-empty. -/
def optStrTruthy : Option String → Bool
  | none => false
  | some s => strTruthy s

/-- Hexadecimal digit predicate accepted by `bson.ObjectId(str)`. -/
def isHexDigit (c : Char) : Bool :=
  c.isDigit || ('a' ≤ c && c ≤ 'f') || ('A' ≤ c && c ≤ 'F')

/-- Numeric value of a hexadecimal digit character. -/
def hexDigitVal (c : Char) : Nat :=
  if c.isDigit then c.toNat - '0'.toNat
  else if 'a' ≤ c && c ≤ 'f' then 10 + c.toNat - 'a'.toNat
  else 10 + c.toNat - 'A'.toNat

/-- `bson.ObjectId(s)`: a 24-character hexadecimal string parses to the
identifier's numeric value; anything else raises `bson.errors.InvalidId`
(modelled as the `invalidId` error, which is not a `PyMongoError`). -/
def parseObjectId (s : String) : Except PyErr Nat :=
  let cs := s.data
  if cs.length == 24 && cs.all isHexDigit then
    .ok (cs.foldl (fun a c => a * 16 + hexDigitVal c) 0)
  else
    .error .invalidId

/-- Lowercase hex digits of a natural number, exactly `k` digits, most
significant first. -/
def hexDigitsAux : Nat → Nat → List Char
  | 0, _ => []
  | k + 1, n => hexDigitsAux k (n / 16) ++ [Nat.digitChar (n % 16)]

/-- `str(ObjectId)`: the 24-character lowercase hexadecimal rendering of the
identifier. -/
def oidToHex (n : Nat) : String := String.mk (hexDigitsAux 24 n)

/-- A document of the `images` collection, as the two generation handlers
persist it (`_id` is store-assigned; fields absent for one of the two
handlers are `none`). -/
structure ImageDoc : Type where
  oid : Nat
  prompt : String
  input_image : Option String := none
  output_format : Option String := none
  aspect_ratio : Option String := none
  reference_tags : Option (List String) := none
  reference_images : Option (List String) := none
  output_url : String
  model : String
  created_at : Nat
  status : String
  deriving DecidableEq

/-- Outcome of running a route handler: a normal 200 response with a JSON
body, an `HTTPException` raised (and not caught) inside the handler, or a
non-`HTTPException` exception propagating out of the handler uncaught. -/
inductive HandlerResult : Type
  | ok (body : List (String × JVal))
  | httpError (status : Nat) (detail : String)
  | uncaught (e : PyErr)
  deriving DecidableEq

/-! ### POST /generate and POST /generate-gen4 (image_gen.py 72-204) -/

/-- Request body of POST /generate (`ImageGenerationRequest`). -/
structure ImageGenerationRequest : Type where
  prompt : String
  input_image : Option String := none
  output_format : String := "jpg"
  aspect_ratio : String := "4:3"

/-- Request body of POST /generate-gen4 (`Gen4ImageRequest`). -/
structure Gen4ImageRequest : Type where
  prompt : String
  aspect_ratio : String := "4:3"
  reference_tags : Option (List String) := none
  reference_images : Option (List String) := none

/-- The `input_data` dict assembled by `generate_image` (lines 85-98):
aspect ratio and input image are included only when truthy. -/
def buildGenerateInput (req : ImageGenerationRequest) : List (String × JVal) :=
  let base : List (String × JVal) :=
    [("prompt", .s req.prompt), ("output_format", .s req.output_format),
     ("safety_tolerance", .n 2), ("prompt_upsampling", .b false)]
  let base :=
    if strTruthy req.aspect_ratio then base ++ [("aspect_ratio", .s req.aspect_ratio)]
    else base
  if optStrTruthy req.input_image then
    base ++ [("input_image", .s (req.input_image.getD ""))]
  else base

/-- The `input_data` dict assembled by `generate_gen4_image` (lines 156-164). -/
def buildGen4Input (req : Gen4ImageRequest) : List (String × JVal) :=
  let base : List (String × JVal) :=
    [("prompt", .s req.prompt), ("aspect_ratio", .s req.aspect_ratio)]
  let base :=
    match req.reference_tags with
    | some (t :: ts) => base ++ [("reference_tags", .s (String.intercalate "," (t :: ts)))]
    | _ => base
  match req.reference_images with
  | some (i :: is') => base ++ [("reference_images", .s (String.intercalate "," (i :: is')))]
  | _ => base

/-- The external `replicate.run` call: model name and input dict to either
an output value or a raised `replicate.exceptions.ReplicateError` (carrying
its message). -/
def ReplicateRun : Type := String → List (String × JVal) → Except String PyVal

/-- `generate_image` (image_gen.py lines 72-140). Inputs beyond the request:
the `REPLICATE_API_KEY` environment value, the external `replicate.run`
function, the current `images` collection contents, the ObjectId the store
will assign on insert, and the current time. Returns the handler outcome,
the new collection contents, and the list of model names passed to
`replicate.run` (the handler's external-call trace). -/
def generate_image (apiKey : Option String) (run : ReplicateRun)
    (req : ImageGenerationRequest) (db : List ImageDoc) (newOid : Nat)
    (now : Nat) : HandlerResult × List ImageDoc × List String :=
  if !(optStrTruthy apiKey) then
    (.httpError 500 "REPLICATE_API_KEY is not set in the environment variables.",
     db, [])
  else
    let input := buildGenerateInput req
    match run "black-forest-labs/flux-kontext-max" input with
    | .error e =>
      (.ok [("message", .s ("Replicate API error: " ++ e)),
            ("success", .b false), ("status_code", .n 500)],
       db, ["black-forest-labs/flux-kontext-max"])
    | .ok output =>
      let output_url := extract_url_from_output output
      let doc : ImageDoc :=
        { oid := newOid, prompt := req.prompt, input_image := req.input_image,
          output_format := some req.output_format, output_url := output_url,
          model := "black-forest-labs/flux-kontext-pro", created_at := now,
          status := "completed" }
      (.ok [("image_url", .s output_url),
            ("message", .s "Image generated successfully with Flux Kontext Pro"),
            ("success", .b true), ("id", .s (oidToHex newOid))],
       db ++ [doc], ["black-forest-labs/flux-kontext-max"])

/-- `generate_gen4_image` (image_gen.py lines 143-204), modelled like
`generate_image`. -/
def generate_gen4_image (apiKey : Option String) (run : ReplicateRun)
    (req : Gen4ImageRequest) (db : List ImageDoc) (newOid : Nat)
    (now : Nat) : HandlerResult × List ImageDoc × List String :=
  if !(optStrTruthy apiKey) then
    (.httpError 500 "REPLICATE_API_KEY is not set in the environment variables.",
     db, [])
  else
    let input := buildGen4Input req
    match run "runwayml/gen4-image" input with
    | .error e =>
      (.ok [("message", .s ("Replicate API error: " ++ e)),
            ("success", .b false), ("status_code", .n 500)],
       db, ["runwayml/gen4-image"])
    | .ok output =>
      let output_url := extract_url_from_output output
      let doc : ImageDoc :=
        { oid := newOid, prompt := req.prompt,
          aspect_ratio := some req.aspect_ratio,
          reference_tags := req.reference_tags,
          reference_images := req.reference_images,
          output_url := output_url, model := "runwayml/gen4-image",
          created_at := now, status := "completed" }
      (.ok [("image_url", .s output_url),
            ("message", .s "Image generated successfully with RunwayML Gen4"),
            ("success", .b true), ("id", .s (oidToHex newOid))],
       db ++ [doc], ["runwayml/gen4-image"])

/-! ### GET /generations (image_gen.py 207-233) -/

/-- One element of the "generations" array: the projection
`{"_id": 1, "output_url": 1, "created_at": 1}` with `_id` coerced to
string. -/
structure GenEntry : Type where
  idStr : String
  output_url : String
  created_at : Nat
  deriving DecidableEq

/-- The projection applied by the `find` call plus the
`generation["_id"] = str(generation["_id"])` coercion. -/
def projectGen (d : ImageDoc) : GenEntry :=
  ⟨oidToHex d.oid, d.output_url, d.created_at⟩

/-- Stable insertion into a list sorted by `created_at` descending: the new
element goes before the first element whose timestamp is not larger,
matching the stability of Python's `list.sort(key=..., reverse=True)`. -/
def insertDesc (x : GenEntry) : List GenEntry → List GenEntry
  | [] => [x]
  | y :: ys =>
    if y.created_at ≤ x.created_at then x :: y :: ys else y :: insertDesc x ys

/-- Stable sort by `created_at` descending, the embedding of
`generations.sort(key=lambda x: x["created_at"], reverse=True)`. -/
def sortDesc : List GenEntry → List GenEntry
  | [] => []
  | x :: xs => insertDesc x (sortDesc xs)

/-- Body of the GET /generations response: the empty-store early return
(`{"message": "No image generations found.", "success": true,
"generations": []}`) or the listing (`{"generations": ..., "success":
true}`). -/
inductive GenerationsResponse : Type
  | emptyOk
  | listing (generations : List GenEntry)
  deriving DecidableEq

/-- `get_image_generations` (image_gen.py lines 207-233): project every
stored document, return the empty-success body when nothing is stored, else
coerce each `_id` to string and sort by `created_at` descending. -/
def get_image_generations (db : List ImageDoc) : GenerationsResponse :=
  let gens := db.map projectGen
  if gens.isEmpty then .emptyOk else .listing (sortDesc gens)

theorem insertDesc_perm (x : GenEntry) (l : List GenEntry) :
    (insertDesc x l).Perm (x :: l) := by
  induction l with
  | nil => rfl
  | cons y ys ih =>
    rw [insertDesc]
    by_cases hc : y.created_at ≤ x.created_at
    · rw [if_pos hc]
    · rw [if_neg hc]
      exact (ih.cons y).trans (List.Perm.swap x y ys)

theorem sortDesc_perm (l : List GenEntry) : (sortDesc l).Perm l := by
  induction l with
  | nil => rfl
  | cons x xs ih => exact (insertDesc_perm x (sortDesc xs)).trans (ih.cons x)

theorem insertDesc_sorted (x : GenEntry) (l : List GenEntry)
    (h : l.Pairwise (fun a b => b.created_at ≤ a.created_at)) :
    (insertDesc x l).Pairwise (fun a b => b.created_at ≤ a.created_at) := by
  induction l with
  | nil => simp [insertDesc]
  | cons y ys ih =>
    rw [insertDesc]
    rw [List.pairwise_cons] at h
    by_cases hc : y.created_at ≤ x.created_at
    · rw [if_pos hc]
      refine List.pairwise_cons.mpr ⟨?_, List.pairwise_cons.mpr h⟩
      intro z hz
      rcases List.mem_cons.mp hz with rfl | hz'
      · exact hc
      · exact le_trans (h.1 z hz') hc
    · rw [if_neg hc]
      refine List.pairwise_cons.mpr ⟨?_, ih h.2⟩
      intro z hz
      rcases List.mem_cons.mp ((insertDesc_perm x ys).mem_iff.mp hz) with rfl | hz'
      · exact le_of_lt (lt_of_not_le hc)
      · exact h.1 z hz'

theorem sortDesc_sorted (l : List GenEntry) :
    (sortDesc l).Pairwise (fun a b => b.created_at ≤ a.created_at) := by
  induction l with
  | nil => exact List.Pairwise.nil
  | cons x xs ih => exact insertDesc_sorted x (sortDesc xs) ih

/-! ### GET /delete/{generation_id} (image_gen.py 236-253) -/

/-- `delete_one({"_id": x})`: remove the first document whose `_id` matches,
returning the new collection contents and `deleted_count`. -/
def deleteOne (x : Nat) : List ImageDoc → List ImageDoc × Nat
  | [] => ([], 0)
  | d :: ds =>
    if d.oid == x then (ds, 1)
    else
      let r := deleteOne x ds
      (d :: r.1, r.2)

/-- `find_one({"_id": x})` on the `images` collection. -/
def find_one_image (x : Nat) (db : List ImageDoc) : Option ImageDoc :=
  db.find? (fun d => d.oid == x)

/-- `delete_image_generation` (image_gen.py lines 236-253): parse the path
parameter with `ObjectId(...)` (whose `InvalidId` is not caught — only
`PyMongoError` is — and so propagates), delete one matching document, raise
`HTTPException(404)` when the count is zero (also uncaught by the
`PyMongoError` clause), else return the success body. -/
def delete_image_generation (generation_id : String) (db : List ImageDoc) :
    HandlerResult × List ImageDoc :=
  match parseObjectId generation_id with
  | .error e => (.uncaught e, db)
  | .ok x =>
    let r := deleteOne x db
    if r.2 == 0 then (.httpError 404 "Image generation not found.", r.1)
    else
      (.ok [("message", .s "Image generation deleted successfully."),
            ("success", .b true)], r.1)

theorem deleteOne_no_match (x : Nat) (db : List ImageDoc)
    (h : ∀ d ∈ db, d.oid ≠ x) : deleteOne x db = (db, 0) := by
  induction db with
  | nil => rfl
  | cons d ds ih =>
    rw [deleteOne]
    have hd : (d.oid == x) = false := by
      simpa using h d (List.mem_cons_self d ds)
    rw [hd]
    simp only [Bool.false_eq_true, if_false]
    rw [ih (fun d' hd' => h d' (List.mem_cons_of_mem d hd'))]

theorem deleteOne_append_fresh (x : Nat) (pre : List ImageDoc) (d : ImageDoc)
    (hd : d.oid = x) (hpre : ∀ d' ∈ pre, d'.oid ≠ x) :
    deleteOne x (pre ++ [d]) = (pre, 1) := by
  induction pre with
  | nil => simp [deleteOne, hd]
  | cons p ps ih =>
    rw [List.cons_append, deleteOne]
    have hp : (p.oid == x) = false := by
      simpa using hpre p (List.mem_cons_self p ps)
    rw [hp]
    simp only [Bool.false_eq_true, if_false]
    rw [ih (fun d' hd' => hpre d' (List.mem_cons_of_mem p hd'))]

/-! ### Claims about the listing and delete handlers -/

/-- Sample stored documents used by the witness theorems. -/
def docA : ImageDoc :=
  { oid := 1, prompt := "p1", output_url := "https://x/a.jpg", model := "m",
    created_at := 5, status := "completed" }

/-- Second sample document, created later than `docA`. -/
def docB : ImageDoc :=
  { oid := 2, prompt := "p2", output_url := "https://x/b.jpg", model := "m",
    created_at := 9, status := "completed" }

/-- C4: for any stored set of at least two documents, in any insertion
order, GET /generations returns the listing of exactly the projected
records (identifier rendered as its hex string by `projectGen`), ordered by
`created_at` descending. -/
theorem generations_sorted_desc (db : List ImageDoc) (h : 2 ≤ db.length) :
    ∃ gens, get_image_generations db = .listing gens
      ∧ gens.Perm (db.map projectGen)
      ∧ gens.Pairwise (fun a b => b.created_at ≤ a.created_at) := by
  refine ⟨sortDesc (db.map projectGen), ?_, sortDesc_perm _, sortDesc_sorted _⟩
  cases db with
  | nil => exact absurd h (by decide)
  | cons d ds => rfl

/-- Witness for C4 at a concrete two-document store. -/
theorem generations_sorted_desc_witness :
    ∃ gens, get_image_generations [docA, docB] = .listing gens
      ∧ gens.Perm ([docA, docB].map projectGen)
      ∧ gens.Pairwise (fun a b => b.created_at ≤ a.created_at) :=
  generations_sorted_desc [docA, docB] (by decide)

/-- C5: for a well-formed identifier, the delete handler raises the 404
not-found `HTTPException` when no stored document matches, and deleting a
just-created document (appended with a fresh identifier) removes exactly
that document, leaves every other document unchanged, and a subsequent
lookup by that identifier misses. -/
theorem delete_not_found_and_removes_exactly_one (s : String) (x : Nat)
    (hs : parseObjectId s = Except.ok x) :
    (∀ db : List ImageDoc, (∀ d ∈ db, d.oid ≠ x) →
        delete_image_generation s db
          = (.httpError 404 "Image generation not found.", db))
    ∧ (∀ (pre : List ImageDoc) (d : ImageDoc), d.oid = x →
        (∀ d' ∈ pre, d'.oid ≠ x) →
        delete_image_generation s (pre ++ [d])
          = (.ok [("message", .s "Image generation deleted successfully."),
                  ("success", .b true)], pre)
        ∧ find_one_image x pre = none) := by
  constructor
  · intro db hdb
    simp only [delete_image_generation, hs, deleteOne_no_match x db hdb]
    rfl
  · intro pre d hd hpre
    constructor
    · simp only [delete_image_generation, hs,
        deleteOne_append_fresh x pre d hd hpre]
      rfl
    · simp only [find_one_image, List.find?_eq_none]
      intro d' hd'
      simpa using hpre d' hd'

/-- Third sample document, with identifier value 1. -/
def docC : ImageDoc :=
  { oid := 1, prompt := "p", output_url := "https://x/c.jpg", model := "m",
    created_at := 3, status := "completed" }

/-- Witness for C5 at the identifier string "000000000000000000000001". -/
theorem delete_not_found_and_removes_exactly_one_witness :
    (delete_image_generation "000000000000000000000001" []
       = (.httpError 404 "Image generation not found.", []))
    ∧ (delete_image_generation "000000000000000000000001" [docC]
         = (.ok [("message", .s "Image generation deleted successfully."),
                 ("success", .b true)], [])
       ∧ find_one_image 1 [] = none) :=
  ⟨(delete_not_found_and_removes_exactly_one "000000000000000000000001" 1
      rfl).1 [] (by simp),
   (delete_not_found_and_removes_exactly_one "000000000000000000000001" 1
      rfl).2 [] docC rfl (by simp)⟩

/-- C6: an identifier string that fails to parse as an ObjectId makes the
delete handler fail with the propagated `InvalidId` exception, an outcome
distinct from the 404 not-found signal (for every 404 detail text). -/
theorem delete_malformed_identifier_signal (s : String) (db : List ImageDoc)
    (h : parseObjectId s = Except.error PyErr.invalidId) :
    delete_image_generation s db = (.uncaught .invalidId, db)
    ∧ ∀ detail : String,
        HandlerResult.uncaught .invalidId ≠ HandlerResult.httpError 404 detail := by
  constructor
  · simp only [delete_image_generation]
    rw [h]
  · intro detail hne
    exact HandlerResult.noConfusion hne

/-- Witness for C6 at the malformed identifier "not-a-valid-objectid". -/
theorem delete_malformed_identifier_signal_witness :
    delete_image_generation "not-a-valid-objectid" [docA]
      = (.uncaught .invalidId, [docA])
    ∧ ∀ detail : String,
        HandlerResult.uncaught .invalidId ≠ HandlerResult.httpError 404 detail :=
  delete_malformed_identifier_signal "not-a-valid-objectid" [docA] rfl

/-! ### Claims about the two generation handlers -/

/-- C9: when the external generation call raises the Replicate error type,
each generation handler returns a normal 200 response whose body carries
`success = false` (not an `HTTPException`), and the store is unchanged. -/
theorem generate_upstream_error_is_ok_payload :
    (∀ (apiKey : Option String) (run : ReplicateRun)
        (req : ImageGenerationRequest) (db : List ImageDoc) (newOid now : Nat)
        (e : String),
        optStrTruthy apiKey = true →
        run "black-forest-labs/flux-kontext-max" (buildGenerateInput req)
          = .error e →
        generate_image apiKey run req db newOid now
          = (.ok [("message", .s ("Replicate API error: " ++ e)),
                  ("success", .b false), ("status_code", .n 500)],
             db, ["black-forest-labs/flux-kontext-max"]))
    ∧ (∀ (apiKey : Option String) (run : ReplicateRun)
        (req : Gen4ImageRequest) (db : List ImageDoc) (newOid now : Nat)
        (e : String),
        optStrTruthy apiKey = true →
        run "runwayml/gen4-image" (buildGen4Input req) = .error e →
        generate_gen4_image apiKey run req db newOid now
          = (.ok [("message", .s ("Replicate API error: " ++ e)),
                  ("success", .b false), ("status_code", .n 500)],
             db, ["runwayml/gen4-image"])) := by
  constructor
  · intro apiKey run req db newOid now e hkey hrun
    simp [generate_image, hkey, hrun]
  · intro apiKey run req db newOid now e hkey hrun
    simp [generate_gen4_image, hkey, hrun]

/-- Witness for C9: a concrete failing run leaves an empty store empty and
returns the success=false body from both handlers. -/
theorem generate_upstream_error_is_ok_payload_witness :
    (generate_image (some "k") (fun _ _ => .error "boom")
        { prompt := "p" } [] 7 11
      = (.ok [("message", .s "Replicate API error: boom"),
              ("success", .b false), ("status_code", .n 500)],
         [], ["black-forest-labs/flux-kontext-max"]))
    ∧ (generate_gen4_image (some "k") (fun _ _ => .error "boom")
        { prompt := "p" } [] 7 11
      = (.ok [("message", .s "Replicate API error: boom"),
              ("success", .b false), ("status_code", .n 500)],
         [], ["runwayml/gen4-image"])) :=
  ⟨generate_upstream_error_is_ok_payload.1 (some "k") (fun _ _ => .error "boom")
     { prompt := "p" } [] 7 11 "boom" rfl rfl,
   generate_upstream_error_is_ok_payload.2 (some "k") (fun _ _ => .error "boom")
     { prompt := "p" } [] 7 11 "boom" rfl rfl⟩

/-- C10: on every successful POST /generate run, the document persisted has
`model = "black-forest-labs/flux-kontext-pro"` and `status = "completed"`,
while the model name actually passed to `replicate.run` is
`"black-forest-labs/flux-kontext-max"`; the persisted model identifier
never equals the invoked one. -/
theorem generate_persists_pro_but_invokes_max
    (apiKey : Option String) (run : ReplicateRun)
    (req : ImageGenerationRequest) (db : List ImageDoc) (newOid now : Nat)
    (out : PyVal)
    (hkey : optStrTruthy apiKey = true)
    (hrun : run "black-forest-labs/flux-kontext-max" (buildGenerateInput req)
      = .ok out) :
    ∃ (doc : ImageDoc) (resp : HandlerResult),
      generate_image apiKey run req db newOid now
        = (resp, db ++ [doc], ["black-forest-labs/flux-kontext-max"])
      ∧ doc.model = "black-forest-labs/flux-kontext-pro"
      ∧ doc.status = "completed"
      ∧ doc.model ≠ "black-forest-labs/flux-kontext-max" := by
  refine ⟨{ oid := newOid, prompt := req.prompt, input_image := req.input_image,
            output_format := some req.output_format,
            output_url := extract_url_from_output out,
            model := "black-forest-labs/flux-kontext-pro", created_at := now,
            status := "completed" },
          .ok [("image_url", .s (extract_url_from_output out)),
               ("message", .s "Image generated successfully with Flux Kontext Pro"),
               ("success", .b true), ("id", .s (oidToHex newOid))],
          ?_, rfl, rfl, ?_⟩
  · simp [generate_image, hkey, hrun]
  · show ("black-forest-labs/flux-kontext-pro" : String)
      ≠ "black-forest-labs/flux-kontext-max"
    decide

/-- Witness for C10 with a concrete successful run. -/
theorem generate_persists_pro_but_invokes_max_witness :
    ∃ (doc : ImageDoc) (resp : HandlerResult),
      generate_image (some "k") (fun _ _ => .ok (.pstr "https://x/a.jpg"))
          { prompt := "p" } [] 7 11
        = (resp, [] ++ [doc], ["black-forest-labs/flux-kontext-max"])
      ∧ doc.model = "black-forest-labs/flux-kontext-pro"
      ∧ doc.status = "completed"
      ∧ doc.model ≠ "black-forest-labs/flux-kontext-max" :=
  generate_persists_pro_but_invokes_max (some "k")
    (fun _ _ => .ok (.pstr "https://x/a.jpg")) { prompt := "p" } [] 7 11
    (.pstr "https://x/a.jpg") rfl rfl

/-! ### GET /users/add/{username} (insta_scraper.py 18-63) -/

/-- A document of the scraper's `users` collection: the upstream API's JSON
object stored verbatim, modelled as an association list of scalar fields. -/
def UserDoc : Type := List (String × JVal)

/-- Does a stored document match the `find_one({"username": username})`
filter: its `username` field equals the requested name. -/
def matchesUsername (username : String) (doc : UserDoc) : Bool :=
  List.lookup "username" doc == some (.s username)

/-- `find_one({"username": username})` over the `users` collection. -/
def users_find_one (username : String) (db : List UserDoc) : Option UserDoc :=
  db.find? (matchesUsername username)

/-- The external RapidAPI profile fetch (`requests.get(...).json()`): either
the decoded JSON document or a raised `requests.RequestException` message. -/
def FetchUser : Type := String → Except String UserDoc

/-- `add_user_to_db` (insta_scraper.py lines 18-63): missing API key raises
`HTTPException(500)` (uncaught by the `RequestException` clause); a store
hit returns the already-exists body without fetching; a miss fetches, and on
success inserts the raw API response verbatim (the store-assigned `_id` is
not modelled) and returns the success body — whose username key is spelled
`"usename"` in the source. Returns the handler outcome, the new `users`
collection contents, and the number of external fetches performed. -/
def add_user_to_db (apiKey : Option String) (fetch : FetchUser)
    (username : String) (db : List UserDoc) :
    HandlerResult × List UserDoc × Nat :=
  if !(optStrTruthy apiKey) then
    (.httpError 500 "RAPID_API_KEY is not set in the environment variables.",
     db, 0)
  else
    match users_find_one username db with
    | some _ =>
      (.ok [("username", .s username),
            ("message", .s "User data already exists in the database.")],
       db, 0)
    | none =>
      match fetch username with
      | .error e =>
        (.ok [("username", .s username),
              ("message", .s ("Error retrieving user data: " ++ e)),
              ("status_code", .n 500)],
         db, 1)
      | .ok api_data =>
        (.ok [("usename", .s username),
              ("message", .s "User data retrieved successfully")],
         db ++ [api_data], 1)

/-! ### Claims about GET /users/add/{username} -/

/-- C7 as stated is false: when the upstream API's response carries no
`username` field — it is stored verbatim with no shape validation — the
second sequential call for the same username misses the store again, so it
fetches a second time and inserts a second document. Concrete input:
username "alice", API key set, upstream returning the document
`{"detail": "Not found"}`. -/
theorem add_user_twice_refetches :
    (add_user_to_db (some "k") (fun _ => .ok [("detail", JVal.s "Not found")])
        "alice" []).2.2 = 1
    ∧ (add_user_to_db (some "k") (fun _ => .ok [("detail", JVal.s "Not found")])
        "alice"
        (add_user_to_db (some "k")
          (fun _ => .ok [("detail", JVal.s "Not found")]) "alice" []).2.1).2.2 = 1
    ∧ (add_user_to_db (some "k") (fun _ => .ok [("detail", JVal.s "Not found")])
        "alice"
        (add_user_to_db (some "k")
          (fun _ => .ok [("detail", JVal.s "Not found")]) "alice" []).2.1).2.1
      = [[("detail", JVal.s "Not found")], [("detail", JVal.s "Not found")]] :=
  ⟨rfl, rfl, rfl⟩

/-- C7 (amended): provided the upstream fetch succeeds and its response
document carries a `username` field equal to the requested username, two
sequential calls perform at most one external fetch: the second call is a
store hit that fetches nothing, inserts nothing, and returns the
already-exists body. -/
theorem add_user_second_call_hits (apiKey : Option String) (fetch : FetchUser)
    (username : String) (db : List UserDoc) (d : UserDoc)
    (hkey : optStrTruthy apiKey = true)
    (hfetch : fetch username = .ok d)
    (hd : List.lookup "username" d = some (.s username)) :
    (add_user_to_db apiKey fetch username db).2.2
      + (add_user_to_db apiKey fetch username
          (add_user_to_db apiKey fetch username db).2.1).2.2 ≤ 1
    ∧ (add_user_to_db apiKey fetch username
        (add_user_to_db apiKey fetch username db).2.1).2.2 = 0
    ∧ (add_user_to_db apiKey fetch username
        (add_user_to_db apiKey fetch username db).2.1).2.1
      = (add_user_to_db apiKey fetch username db).2.1
    ∧ (add_user_to_db apiKey fetch username
        (add_user_to_db apiKey fetch username db).2.1).1
      = .ok [("username", .s username),
             ("message", .s "User data already exists in the database.")] := by
  have hmatch : matchesUsername username d = true := by
    simp [matchesUsername, hd]
  rcases hfind : users_find_one username db with _ | u
  · have hfind2 : users_find_one username (db ++ [d]) = some d := by
      simp only [users_find_one, List.find?_append]
      rw [show db.find? (matchesUsername username) = none from hfind]
      simp [List.find?, hmatch]
    simp [add_user_to_db, hkey, hfind, hfetch, hfind2]
  · simp [add_user_to_db, hkey, hfind]

/-- Witness for the amended C7 with a concrete conforming upstream
response. -/
theorem add_user_second_call_hits_witness :
    (add_user_to_db (some "k")
        (fun _ => .ok [("username", JVal.s "alice"), ("followers", JVal.n 10)])
        "alice" []).2.2
      + (add_user_to_db (some "k")
          (fun _ => .ok [("username", JVal.s "alice"), ("followers", JVal.n 10)])
          "alice"
          (add_user_to_db (some "k")
            (fun _ => .ok [("username", JVal.s "alice"), ("followers", JVal.n 10)])
            "alice" []).2.1).2.2 ≤ 1
    ∧ (add_user_to_db (some "k")
        (fun _ => .ok [("username", JVal.s "alice"), ("followers", JVal.n 10)])
        "alice"
        (add_user_to_db (some "k")
          (fun _ => .ok [("username", JVal.s "alice"), ("followers", JVal.n 10)])
          "alice" []).2.1).2.2 = 0
    ∧ (add_user_to_db (some "k")
        (fun _ => .ok [("username", JVal.s "alice"), ("followers", JVal.n 10)])
        "alice"
        (add_user_to_db (some "k")
          (fun _ => .ok [("username", JVal.s "alice"), ("followers", JVal.n 10)])
          "alice" []).2.1).2.1
      = (add_user_to_db (some "k")
          (fun _ => .ok [("username", JVal.s "alice"), ("followers", JVal.n 10)])
          "alice" []).2.1
    ∧ (add_user_to_db (some "k")
        (fun _ => .ok [("username", JVal.s "alice"), ("followers", JVal.n 10)])
        "alice"
        (add_user_to_db (some "k")
          (fun _ => .ok [("username", JVal.s "alice"), ("followers", JVal.n 10)])
          "alice" []).2.1).1
      = .ok [("username", .s "alice"),
             ("message", .s "User data already exists in the database.")] :=
  add_user_second_call_hits (some "k")
    (fun _ => .ok [("username", JVal.s "alice"), ("followers", JVal.n 10)])
    "alice" [] [("username", JVal.s "alice"), ("followers", JVal.n 10)]
    rfl rfl (by decide)

/-- C8: the fetch-and-store success body of GET /users/add/{username} at a
concrete successful input: the body's username value is carried under the
key "usename" (the source's spelling at insta_scraper.py line 54), and no
"username" key is present — contradicting the documented response shape
`{username, message}`. -/
theorem add_user_success_body_has_usename_key :
    ∃ body,
      (add_user_to_db (some "k") (fun _ => .ok [("full_name", JVal.s "Alice")])
          "alice" []).1 = .ok body
      ∧ List.lookup "usename" body = some (JVal.s "alice")
      ∧ List.lookup "username" body = none
      ∧ List.lookup "message" body
          = some (JVal.s "User data retrieved successfully") :=
  ⟨[("usename", .s "alice"),
    ("message", .s "User data retrieved successfully")],
   rfl, rfl, rfl, rfl⟩

end FastApiApp
